import Mathlib

/-!
Verification of the Pong simulation engine.

The repository contains two variants of the engine, `src/Pong.py` (the
primary one) and `src/main.py` (an earlier variant).  Both implement the
same discrete-time state machine: the `Engine` class holds the board,
ball, paddle, score and rally state, and the methods `move_paddle`,
`check_paddle_collision`, `move_ball`, `check_goal`, `check_game_over`,
`reset` and `initialise` advance it.

Two aspects of the Python code cannot be embedded literally:

* The geometric point samplers `get_circle_points` and
  `get_rounded_rectangle_points` use IEEE floating point `sin`/`cos`
  (truncated to ints).  The engine consumes them only through
  set-disjointness tests: "does the sampled ball perimeter centred at
  `bc` meet region `r` of the sampled rounded rectangle centred at
  `pc` with height `h`?".  We abstract exactly that query as an oracle
  (`Geo`) and prove the engine-level claims for every oracle, which in
  particular covers the oracle realised by the floating-point samplers
  (of either variant, which use different sample counts).

* Calls to `random.choice` are modelled by threading an explicit
  natural-number index `k` and selecting element `k % length` of the
  candidate list, so the set of possible outcomes is exactly the set of
  list members.

Python `//` is floor division, embedded as `Int.fdiv`.
-/

namespace Pong

/-- `BALL_DIAMETER = 40` (both variants). -/
def BALL_DIAMETER : Int := 40

/-- `BALL_RADIUS = BALL_DIAMETER // 2 = 20`. -/
def BALL_RADIUS : Int := BALL_DIAMETER.fdiv 2

/-- `PADDLE_WIDTH = 60` (both variants). -/
def PADDLE_WIDTH : Int := 60

/-- `PADDLE_MOVE_PIXELS = 15` (`Pong.py`). -/
def PADDLE_MOVE_PIXELS : Int := 15

/-- `Engine._ball_directions`: the 6 permitted ball directions
(identical in both variants). -/
def ballDirections : List (Int × Int) :=
  [(1, 0), (1, -1), (1, 1), (-1, 0), (-1, -1), (-1, 1)]

/-- `Engine.ball_move_amounts` of `Pong.py`:
`[(x, y) for x in range(10, 16) for y in range(5, 16)]`. -/
def ballMoveAmounts : List (Int × Int) :=
  ((List.range 6).map (fun x => (x : Int) + 10)).flatMap
    (fun x => ((List.range 11).map (fun y => (y : Int) + 5)).map
      (fun y => (x, y)))

/-- `Engine.ball_move_amounts` of `main.py`:
`[(x, y) for x in range(4, 11) for y in range(4, 11)]`. -/
def ballMoveAmountsM : List (Int × Int) :=
  ((List.range 7).map (fun x => (x : Int) + 4)).flatMap
    (fun x => ((List.range 7).map (fun y => (y : Int) + 4)).map
      (fun y => (x, y)))

/-- Model of `random.choice l`: the chosen element, indexed by an
explicit random seed `k`.  Every member of a nonempty `l` is a possible
outcome, and every outcome is a member. -/
def choice {α : Type} (l : List α) (dflt : α) (k : Nat) : α :=
  l.getD (k % l.length) dflt

/-- Read a per-player pair (`Engine` stores per-player data in
two-element lists indexed by the player number). -/
def pget {α : Type} (p : α × α) (i : Fin 2) : α :=
  if i = 0 then p.1 else p.2

/-- Write one component of a per-player pair. -/
def pset {α : Type} (p : α × α) (i : Fin 2) (v : α) : α × α :=
  if i = 0 then (v, p.2) else (p.1, v)

/-- Abstraction of the sampled point-set geometry.  `hit bc pc h r` is
the result of `not ballPerimeter.isdisjoint(paddlePerimeter[r])` where
`ballPerimeter = get_circle_points(bc, BALL_RADIUS)` and
`paddlePerimeter = get_rounded_rectangle_points(pc, PADDLE_WIDTH, h, 10)`;
region `r` is `0` = right edge, `1` = left edge, `2` = top region,
`3` = bottom region, exactly the list returned by
`get_rounded_rectangle_points`.  The engine theorems below hold for
every oracle, hence for the one computed by the floating-point samplers
of either variant. -/
structure Geo where
  hit : Int × Int → Int × Int → Int → Fin 4 → Bool

/-- The `Engine` state (fields common to both variants; the candidate
lists `_ball_directions` / `ball_move_amounts` are instance constants
and are modelled as the global lists above). -/
structure Engine where
  board_width : Int
  board_height : Int
  ball_move_pixels : Int × Int
  current_ball_direction : Int × Int
  ball_position : Int × Int
  paddles : (Int × Int) × (Int × Int)
  paddle_sizes : Int × Int
  cpus : Bool × Bool
  scores : Int × Int
  rally_counter : Int × Int
  deriving DecidableEq, Repr

/-- The tentative next ball position: `ball_position + direction ⊙ speed`,
computed (componentwise) at the top of `check_paddle_collision`,
`move_ball` and (x only) `check_goal`. -/
def tentative (s : Engine) : Int × Int :=
  (s.ball_position.1 + s.current_ball_direction.1 * s.ball_move_pixels.1,
   s.ball_position.2 + s.current_ball_direction.2 * s.ball_move_pixels.2)

/-- `Engine.check_wall_collision(new_y, offset)` (identical in both
variants): `new_y + offset > board_height or new_y - offset < 0`. -/
def check_wall_collision (s : Engine) (newY offset : Int) : Bool :=
  newY + offset > s.board_height || newY - offset < 0

/-- `Engine.check_ball_collision(player, new_y, offset)` of `Pong.py`:
returns `False` immediately when the current ball x lies strictly inside
the central band `(2*PADDLE_WIDTH, board_width - 2*PADDLE_WIDTH)`;
otherwise tests the ball's perimeter (at the current ball position)
against the top (index 2) and bottom (index 3) regions of the paddle
rectangle re-centred at `new_y` with height `offset`. -/
def check_ball_collision (geo : Geo) (s : Engine) (player : Fin 2)
    (newY offset : Int) : Bool :=
  let ballX := s.ball_position.1
  if PADDLE_WIDTH * 2 < ballX ∧ ballX < s.board_width - PADDLE_WIDTH * 2 then
    false
  else
    let paddle := pget s.paddles player
    geo.hit s.ball_position (paddle.1, newY) offset 2 ||
      geo.hit s.ball_position (paddle.1, newY) offset 3

/-- `Engine.move_paddle(player, direction, pixels)` of `Pong.py`
(`main.py` is the special case `pixels = 10`): clamp the candidate
centre, then revert it if it collides with a wall or with the ball. -/
def move_paddle (geo : Geo) (s : Engine) (player : Fin 2)
    (direction pixels : Int) : Engine :=
  let cur := pget s.paddles player
  let size := pget s.paddle_sizes player
  let newY0 := cur.2 + pixels * direction
  let newY1 :=
    if direction > 0 then
      min newY0 (s.board_height - size.fdiv 2 - 1)
    else
      max newY0 (size.fdiv 2 + 1)
  let newY :=
    if check_wall_collision s newY1 (size.fdiv 2) ||
        check_ball_collision geo s player newY1 size then
      cur.2
    else
      newY1
  { s with paddles := pset s.paddles player (cur.1, newY) }

/-- The geometry query issued by `check_paddle_collision` for the ball
perimeter centred at `bc` against region `r` of `player`'s paddle. -/
def hitRegion (geo : Geo) (s : Engine) (bc : Int × Int) (player : Fin 2)
    (r : Fin 4) : Bool :=
  geo.hit bc (pget s.paddles player) (pget s.paddle_sizes player) r

/-- The paddle-collision loop of `check_paddle_collision` (identical in
both variants), unrolled over the two players: for each player in order
test the side edge whose region index equals the player index (the right
edge of paddle 0, the left edge of paddle 1), then the top region, then
the bottom region; the first non-disjoint test wins. -/
def classify_collision (geo : Geo) (s : Engine) (bc : Int × Int) :
    Option (Fin 2 × Fin 4) :=
  if hitRegion geo s bc 0 0 then some (0, 0)
  else if hitRegion geo s bc 0 2 then some (0, 2)
  else if hitRegion geo s bc 0 3 then some (0, 3)
  else if hitRegion geo s bc 1 1 then some (1, 1)
  else if hitRegion geo s bc 1 2 then some (1, 2)
  else if hitRegion geo s bc 1 3 then some (1, 3)
  else none

/-- The state mutation performed inside the collision branches of
`check_paddle_collision`: swap the horizontal direction, set the
vertical direction per region (`-1` for the top region, `1` for the
bottom region, `random.choice(range(-1, 2))` — modelled as `kY % 3 - 1`
— for a side edge), re-randomize the speed from `amounts`, and increment
the colliding player's rally counter. -/
def apply_bounce (amounts : List (Int × Int)) (kY kS : Nat) (s : Engine)
    (player : Fin 2) (r : Fin 4) : Engine :=
  let dirX := s.current_ball_direction.1
  let newDirY : Int :=
    if r = 2 then -1 else if r = 3 then 1 else ((kY % 3 : Nat) : Int) - 1
  { s with
    current_ball_direction := (-dirX, newDirY),
    ball_move_pixels := choice amounts (10, 5) kS,
    rally_counter :=
      pset s.rally_counter player (pget s.rally_counter player + 1) }

/-- `Engine.check_paddle_collision()` of `Pong.py`: returns `False`
without any geometry test when the tentative ball x lies strictly inside
the central band; otherwise runs the per-player region loop and, on a
hit, mutates direction, speed and rally counter.  Returns the updated
state with the boolean result. -/
def check_paddle_collision (geo : Geo) (kY kS : Nat) (s : Engine) :
    Engine × Bool :=
  let newBall := tentative s
  if PADDLE_WIDTH * 2 < newBall.1 ∧
      newBall.1 < s.board_width - PADDLE_WIDTH * 2 then
    (s, false)
  else
    match classify_collision geo s newBall with
    | none => (s, false)
    | some (player, r) => (apply_bounce ballMoveAmounts kY kS s player r, true)

/-- `Engine.check_paddle_collision()` of `main.py`: as in `Pong.py` but
with no central-band culling and with `main.py`'s speed candidates. -/
def check_paddle_collisionM (geo : Geo) (kY kS : Nat) (s : Engine) :
    Engine × Bool :=
  match classify_collision geo s (tentative s) with
  | none => (s, false)
  | some (player, r) => (apply_bounce ballMoveAmountsM kY kS s player r, true)

/-- `Engine.move_ball()` (identical in both variants up to the
collision check used): compute the tentative position from the pre-tick
state; on a paddle collision keep the pre-tick position (the bounce
consumes the tick); otherwise on a wall collision flip the vertical
direction and recompute the tentative y with the new direction; commit
the resulting position. -/
def move_ball (geo : Geo) (kY kS : Nat) (s : Engine) : Engine :=
  let dir := s.current_ball_direction
  let newX := s.ball_position.1 + dir.1 * s.ball_move_pixels.1
  let newY := s.ball_position.2 + dir.2 * s.ball_move_pixels.2
  let res := check_paddle_collision geo kY kS s
  let s1 := res.1
  if res.2 then
    { s1 with ball_position := s.ball_position }
  else if check_wall_collision s1 newY BALL_RADIUS then
    let s2 := { s1 with current_ball_direction := (dir.1, -dir.2) }
    { s2 with
      ball_position :=
        (newX, s2.ball_position.2 +
          s2.current_ball_direction.2 * s2.ball_move_pixels.2) }
  else
    { s1 with ball_position := (newX, newY) }

/-- `Engine.check_goal()` (identical logic in both variants; `main.py`
returns the string `"none"` where `Pong.py` returns `None`, modelled as
`Option`): if the tentative ball x is at most `BALL_RADIUS`, player
two's score is incremented; else if it is at least
`board_width - BALL_RADIUS`, player one's score is incremented. -/
def check_goal (s : Engine) : Engine × Option String :=
  let newX := s.ball_position.1 + s.current_ball_direction.1 * s.ball_move_pixels.1
  if newX ≤ BALL_RADIUS then
    ({ s with scores := (s.scores.1, s.scores.2 + 1) }, some "two")
  else if newX ≥ s.board_width - BALL_RADIUS then
    ({ s with scores := (s.scores.1 + 1, s.scores.2) }, some "one")
  else
    (s, none)

/-- `Engine.check_game_over()` of `Pong.py`: returns the winner message
for the first player (player 0 checked first) whose score equals 10. -/
def check_game_over (s : Engine) : Option String :=
  if s.scores.1 = 10 then some "Player One won!"
  else if s.scores.2 = 10 then some "Player Two won!"
  else none

/-- `Engine.check_game_over()` of `main.py`: emits the winner signal for
each player whose score equals 3 (no early return), modelled as the list
of emitted messages in emission order. -/
def check_game_overM (s : Engine) : List String :=
  (if s.scores.1 = 3 then ["Player One won!"] else []) ++
    (if s.scores.2 = 3 then ["Player Two won!"] else [])

/-- `Engine.reset()` of `Pong.py`: re-randomize the direction from the
6-direction list, zero the rally counters, centre the ball.  Paddles and
scores are not touched. -/
def reset (s : Engine) (k : Nat) : Engine :=
  { s with
    current_ball_direction := choice ballDirections (1, 0) k,
    rally_counter := (0, 0),
    ball_position := (s.board_width.fdiv 2, s.board_height.fdiv 2) }

/-- `Engine.reset()` of `main.py`: as in `Pong.py`, and additionally
re-centres both paddles at `(PADDLE_WIDTH // 2, board_height // 2)` and
`(board_width - PADDLE_WIDTH // 2, board_height // 2)`. -/
def resetM (s : Engine) (k : Nat) : Engine :=
  { s with
    current_ball_direction := choice ballDirections (1, 0) k,
    rally_counter := (0, 0),
    ball_position := (s.board_width.fdiv 2, s.board_height.fdiv 2),
    paddles :=
      ((PADDLE_WIDTH.fdiv 2, s.board_height.fdiv 2),
       (s.board_width - PADDLE_WIDTH.fdiv 2, s.board_height.fdiv 2)) }

/-- `Engine.initialise()` of `Pong.py`: zero the scores, centre both
paddles vertically, then `reset()`. -/
def initialise (s : Engine) (k : Nat) : Engine :=
  let initialPaddleY := s.board_height.fdiv 2
  reset
    { s with
      scores := (0, 0),
      paddles :=
        ((0 + PADDLE_WIDTH.fdiv 2, initialPaddleY),
         (s.board_width - PADDLE_WIDTH.fdiv 2, initialPaddleY)) } k

/-- One player's step of `Engine.cpu_move_paddles()` of `Pong.py`: if
that player's CPU flag is set, move the paddle toward the ball's current
y by `min(gap, PADDLE_MOVE_PIXELS)` pixels. -/
def cpu_move_one (geo : Geo) (s : Engine) (player : Fin 2) : Engine :=
  if pget s.cpus player then
    let ballY := s.ball_position.2
    let paddleY := (pget s.paddles player).2
    let gap := |paddleY - ballY|
    let pixels := min gap PADDLE_MOVE_PIXELS
    if paddleY > ballY then move_paddle geo s player (-1) pixels
    else if paddleY < ballY then move_paddle geo s player 1 pixels
    else s
  else s

/-- `Engine.cpu_move_paddles()` of `Pong.py`: the per-player CPU step
for player 0 then player 1 (`move_paddle` never changes the ball, so
reading the ball y per step equals the source's single read). -/
def cpu_move_paddles (geo : Geo) (s : Engine) : Engine :=
  cpu_move_one geo (cpu_move_one geo s 0) 1

/-! ### Helper lemmas and concrete witness inputs -/

/-- The geometry oracle that reports every region test as intersecting. -/
def geoTrue : Geo := ⟨fun _ _ _ _ => true⟩

/-- The geometry oracle that reports every region test as disjoint. -/
def geoFalse : Geo := ⟨fun _ _ _ _ => false⟩

/-- A geometry oracle under which the ball intersects exactly the
outward-facing side edge of each paddle: the left edge (region 1) of a
paddle in the left half of the board, the right edge (region 0) of a
paddle in the right half. -/
def geoOut : Geo :=
  ⟨fun _ pc _ r =>
    (decide (pc.1 < 750) && decide (r = 1)) ||
      (decide (750 ≤ pc.1) && decide (r = 0))⟩

/-- A concrete engine state matching the configuration both variants
construct: board 1500 × 700, paddles centred, ball centred. -/
def e0 : Engine :=
  { board_width := 1500, board_height := 700, ball_move_pixels := (10, 5),
    current_ball_direction := (1, 0), ball_position := (750, 350),
    paddles := ((30, 350), (1470, 350)), paddle_sizes := (120, 120),
    cpus := (false, false), scores := (0, 0), rally_counter := (0, 0) }

/-- A state with the ball near the left edge (tentative x outside the
central culling band), used to witness paddle-collision claims. -/
def e1 : Engine := { e0 with ball_position := (100, 350) }

/-- A state whose tentative ball x crosses the left goal line. -/
def e3 : Engine :=
  { e0 with ball_position := (25, 350), current_ball_direction := (-1, 0) }

/-- A state with player 0's paddle centre at y = 160 (inside the legal
range) and the ball far away, so paddle-move ball checks are culled. -/
def e4 : Engine := { e0 with paddles := ((30, 160), (1470, 350)) }

/-- A state with player 0's paddle centre displaced from board centre. -/
def e5 : Engine := { e0 with paddles := ((30, 100), (1470, 350)) }

/-- A state about to hit the bottom wall: tentative y 695, radius 20. -/
def e7 : Engine :=
  { e0 with ball_position := (200, 690), current_ball_direction := (1, 1) }

/-- The element `choice` picks is a member of any nonempty list. -/
theorem choice_mem {α : Type} (l : List α) (dflt : α) (k : Nat)
    (h : l ≠ []) : choice l dflt k ∈ l := by
  have hlen : 0 < l.length := List.length_pos.mpr h
  have hk : k % l.length < l.length := Nat.mod_lt _ hlen
  unfold choice
  rw [List.getD_eq_getElem l dflt hk]
  exact List.getElem_mem hk

/-- Reading the player just written. -/
theorem pget_pset_same {α : Type} (x : α × α) (i : Fin 2) (v : α) :
    pget (pset x i v) i = v := by
  fin_cases i <;> simp [pget, pset]

/-- Writing one player leaves the other player's entry unchanged. -/
theorem pget_pset_other {α : Type} (x : α × α) (i j : Fin 2) (v : α)
    (h : j ≠ i) : pget (pset x i v) j = pget x j := by
  fin_cases i <;> fin_cases j <;> simp_all [pget, pset]

/-- Membership in the 6-direction list, component-wise. -/
theorem mem_ballDirections_iff (d : Int × Int) :
    d ∈ ballDirections ↔
      (d.1 = 1 ∨ d.1 = -1) ∧ (d.2 = -1 ∨ d.2 = 0 ∨ d.2 = 1) := by
  obtain ⟨x, y⟩ := d
  constructor
  · intro h
    fin_cases h <;> simp
  · rintro ⟨h1 | h1, h2 | h2 | h2⟩ <;> simp_all [ballDirections]

/-- When `check_paddle_collision` reports no collision it has not
changed the state. -/
theorem check_paddle_collision_state (geo : Geo) (kY kS : Nat)
    (s : Engine) (h : (check_paddle_collision geo kY kS s).2 = false) :
    (check_paddle_collision geo kY kS s).1 = s := by
  simp only [check_paddle_collision] at h ⊢
  by_cases hb : PADDLE_WIDTH * 2 < (tentative s).1 ∧
      (tentative s).1 < s.board_width - PADDLE_WIDTH * 2
  · rw [if_pos hb]
  · rw [if_neg hb] at h ⊢
    cases hcc : classify_collision geo s (tentative s) with
    | none => rfl
    | some pr =>
      obtain ⟨p, r⟩ := pr
      rw [hcc] at h
      simp at h

/-- When detection fires (tentative x outside the band and the region
loop classifies a hit), `check_paddle_collision` applies the bounce. -/
theorem check_paddle_collision_hit (geo : Geo) (kY kS : Nat) (s : Engine)
    (p : Fin 2) (r : Fin 4)
    (hband : ¬(PADDLE_WIDTH * 2 < (tentative s).1 ∧
      (tentative s).1 < s.board_width - PADDLE_WIDTH * 2))
    (hcl : classify_collision geo s (tentative s) = some (p, r)) :
    check_paddle_collision geo kY kS s =
      (apply_bounce ballMoveAmounts kY kS s p r, true) := by
  simp only [check_paddle_collision]
  rw [if_neg hband, hcl]

/-! ### Claim theorems -/

/-- C1: for every tick in which the ball's tentative position collides
with a paddle region (the tentative x is outside the central culling
band and the region loop classifies a hit on player `p`'s region `r`):
the horizontal direction component is negated (strictly reversing it
whenever it is nonzero), player `p`'s rally counter increases by exactly
1 while the other player's is unchanged, the ball's position for the
tick equals its pre-tick position, the vertical direction becomes
exactly -1 on a top-region hit (`r = 2`), exactly +1 on a bottom-region
hit (`r = 3`), and some value in {-1, 0, 1} on a side hit
(`r = 0` or `r = 1`), and the speed pair is set to a member of the
fixed candidate list `ball_move_amounts`. -/
theorem c1_paddle_bounce (geo : Geo) (kY kS : Nat) (s : Engine)
    (p : Fin 2) (r : Fin 4)
    (hband : ¬(PADDLE_WIDTH * 2 < (tentative s).1 ∧
      (tentative s).1 < s.board_width - PADDLE_WIDTH * 2))
    (hcl : classify_collision geo s (tentative s) = some (p, r)) :
    (move_ball geo kY kS s).current_ball_direction.1 =
        -s.current_ball_direction.1
    ∧ (s.current_ball_direction.1 ≠ 0 →
        (move_ball geo kY kS s).current_ball_direction.1 ≠
          s.current_ball_direction.1)
    ∧ pget (move_ball geo kY kS s).rally_counter p =
        pget s.rally_counter p + 1
    ∧ (∀ q : Fin 2, q ≠ p →
        pget (move_ball geo kY kS s).rally_counter q = pget s.rally_counter q)
    ∧ (move_ball geo kY kS s).ball_position = s.ball_position
    ∧ (r = 2 → (move_ball geo kY kS s).current_ball_direction.2 = -1)
    ∧ (r = 3 → (move_ball geo kY kS s).current_ball_direction.2 = 1)
    ∧ ((r = 0 ∨ r = 1) →
        ((move_ball geo kY kS s).current_ball_direction.2 = -1 ∨
         (move_ball geo kY kS s).current_ball_direction.2 = 0 ∨
         (move_ball geo kY kS s).current_ball_direction.2 = 1))
    ∧ (move_ball geo kY kS s).ball_move_pixels ∈ ballMoveAmounts := by
  have hc := check_paddle_collision_hit geo kY kS s p r hband hcl
  have hmb : move_ball geo kY kS s =
      { apply_bounce ballMoveAmounts kY kS s p r with
        ball_position := s.ball_position } := by
    simp [move_ball, hc]
  rw [hmb]
  have hk3 : ((kY % 3 : Nat) : Int) = 0 ∨ ((kY % 3 : Nat) : Int) = 1 ∨
      ((kY % 3 : Nat) : Int) = 2 := by omega
  refine ⟨rfl, ?_, ?_, ?_, rfl, ?_, ?_, ?_, ?_⟩
  · intro hx
    simp only [apply_bounce]
    omega
  · simp [apply_bounce, pget_pset_same]
  · intro q hq
    simp [apply_bounce, pget_pset_other _ _ _ _ hq]
  · intro h2
    simp [apply_bounce, h2]
  · intro h3
    subst h3
    simp [apply_bounce]
  · rintro (h0 | h1)
    · subst h0
      simp only [apply_bounce]
      norm_num
      omega
    · subst h1
      simp only [apply_bounce]
      norm_num
      omega
  · simp only [apply_bounce]
    exact choice_mem _ _ _ (by decide)

/-- C1 witness: with the always-intersecting oracle and the ball just
left of the culling band, a side hit on player 0 is detected and all
the bounce effects hold. -/
theorem c1_witness :
    (move_ball geoTrue 0 0 e1).current_ball_direction.1 =
        -e1.current_ball_direction.1
    ∧ (move_ball geoTrue 0 0 e1).ball_position = e1.ball_position
    ∧ pget (move_ball geoTrue 0 0 e1).rally_counter 0 =
        pget e1.rally_counter 0 + 1
    ∧ (move_ball geoTrue 0 0 e1).ball_move_pixels ∈ ballMoveAmounts := by
  have h := c1_paddle_bounce geoTrue 0 0 e1 0 0 (by decide) (by rfl)
  exact ⟨h.1, h.2.2.2.2.1, h.2.2.1, h.2.2.2.2.2.2.2.2⟩

/-- C2: on a tick where `check_paddle_collision` reports no collision
and the tentative y does not violate the vertical walls, the ball
position advances by exactly `direction ⊙ speed` and every other field
— in particular the direction and speed pairs — is unchanged. -/
theorem c2_free_flight (geo : Geo) (kY kS : Nat) (s : Engine)
    (hnc : (check_paddle_collision geo kY kS s).2 = false)
    (hnw : check_wall_collision s (tentative s).2 BALL_RADIUS = false) :
    move_ball geo kY kS s = { s with ball_position := tentative s }
    ∧ (move_ball geo kY kS s).ball_position =
        (s.ball_position.1 + s.current_ball_direction.1 * s.ball_move_pixels.1,
         s.ball_position.2 + s.current_ball_direction.2 * s.ball_move_pixels.2)
    ∧ (move_ball geo kY kS s).current_ball_direction =
        s.current_ball_direction
    ∧ (move_ball geo kY kS s).ball_move_pixels = s.ball_move_pixels := by
  have hs1 := check_paddle_collision_state geo kY kS s hnc
  have hmb : move_ball geo kY kS s = { s with ball_position := tentative s } := by
    simp only [move_ball, hnc, hs1, Bool.false_eq_true, if_false]
    rw [if_neg]
    · rfl
    · rw [show (s.ball_position.2 +
          s.current_ball_direction.2 * s.ball_move_pixels.2) =
          (tentative s).2 from rfl, hnw]
      simp
  exact ⟨hmb, by rw [hmb]; rfl, by rw [hmb], by rw [hmb]⟩

/-- C2 witness: centred ball, all region tests disjoint, no wall hit:
the ball advances from (750, 350) to (760, 350). -/
theorem c2_witness :
    move_ball geoFalse 0 0 e0 = { e0 with ball_position := tentative e0 }
    ∧ (move_ball geoFalse 0 0 e0).ball_position = (760, 350) := by
  have h := c2_free_flight geoFalse 0 0 e0 (by decide) (by decide)
  exact ⟨h.1, by rw [h.2.1]; decide⟩

/-- C3: assuming the board is wider than the ball (true of the only
constructed configuration, 1500 × 40), `check_goal` increments exactly
player two's score by 1 when the tentative ball x is at most the ball
radius, exactly player one's score by 1 when it is at least
`board_width - BALL_RADIUS`, and no score otherwise. -/
theorem c3_goal_scoring (s : Engine) (hW : 2 * BALL_RADIUS < s.board_width) :
    ((tentative s).1 ≤ BALL_RADIUS →
      check_goal s = ({ s with scores := (s.scores.1, s.scores.2 + 1) }, some "two"))
    ∧ ((tentative s).1 ≥ s.board_width - BALL_RADIUS →
      check_goal s = ({ s with scores := (s.scores.1 + 1, s.scores.2) }, some "one"))
    ∧ (BALL_RADIUS < (tentative s).1 →
      (tentative s).1 < s.board_width - BALL_RADIUS →
      check_goal s = (s, none)) := by
  have hR : BALL_RADIUS = 20 := by decide
  simp only [check_goal]
  rw [show (s.ball_position.1 +
    s.current_ball_direction.1 * s.ball_move_pixels.1) = (tentative s).1 from rfl]
  refine ⟨fun h1 => ?_, fun h2 => ?_, fun h3 h4 => ?_⟩
  · rw [if_pos h1]
  · rw [if_neg (by omega), if_pos h2]
  · rw [if_neg (by omega), if_neg (by omega)]

/-- C3 witness: at tentative x = 15 ≤ 20 the right player scores. -/
theorem c3_witness :
    check_goal e3 = ({ e3 with scores := (0, 1) }, some "two") := by
  have h := (c3_goal_scoring e3 (by decide)).1 (by decide)
  simpa using h

/-- C4 counterexample to the claim as stated (which quantifies over
*any* pixel step): starting from a legal state — player 0's paddle
centre 160 lies in [61, 639] — the call
`move_paddle(player = 0, direction = 1, pixels = -100)` leaves the
paddle centre at 60, below the claimed lower bound 61.  The ball sits
at the board centre, inside the culling band, so `check_ball_collision`
short-circuits to `False` before consulting any geometry (here the
always-intersecting oracle is supplied, the one that would most easily
block the move). -/
theorem c4_counterexample :
    ((pget e4.paddle_sizes 0).fdiv 2 + 1 ≤ (pget e4.paddles 0).2
      ∧ (pget e4.paddles 0).2 ≤
          e4.board_height - (pget e4.paddle_sizes 0).fdiv 2 - 1)
    ∧ ¬((pget e4.paddle_sizes 0).fdiv 2 + 1 ≤
          (pget (move_paddle geoTrue e4 0 1 (-100)).paddles 0).2) := by
  decide

/-- C4 amended: for every prior state in which player `p`'s paddle
centre y lies within `[size/2 + 1, board_height - size/2 - 1]`, after a
`move_paddle` call with any direction and any *nonnegative* pixel step
(every call site passes a nonnegative step: the default 15, `main.py`'s
fixed 10, or `min(gap, 15)` from the CPU), the centre y still lies
within that interval, for any geometry oracle. -/
theorem c4_amended_paddle_range (geo : Geo) (s : Engine) (p : Fin 2)
    (d px : Int) (hpx : 0 ≤ px)
    (hlo : (pget s.paddle_sizes p).fdiv 2 + 1 ≤ (pget s.paddles p).2)
    (hhi : (pget s.paddles p).2 ≤
      s.board_height - (pget s.paddle_sizes p).fdiv 2 - 1) :
    (pget s.paddle_sizes p).fdiv 2 + 1 ≤
        (pget (move_paddle geo s p d px).paddles p).2
    ∧ (pget (move_paddle geo s p d px).paddles p).2 ≤
        s.board_height - (pget s.paddle_sizes p).fdiv 2 - 1 := by
  simp only [move_paddle, pget_pset_same]
  by_cases hd : d > 0
  · have hpd : 0 ≤ px * d := mul_nonneg hpx hd.le
    rw [if_pos hd]
    split
    · exact ⟨hlo, hhi⟩
    · constructor
      · rcases min_le_iff.mp (le_refl (min ((pget s.paddles p).2 + px * d)
          (s.board_height - (pget s.paddle_sizes p).fdiv 2 - 1))) with h | h <;>
          omega
      · exact min_le_right _ _
  · have hd' : d ≤ 0 := not_lt.mp hd
    have hpd : px * d ≤ 0 := mul_nonpos_iff.mpr (Or.inl ⟨hpx, hd'⟩)
    rw [if_neg hd]
    split
    · exact ⟨hlo, hhi⟩
    · constructor
      · exact le_max_right _ _
      · rcases le_max_iff.mp (le_refl (max ((pget s.paddles p).2 + px * d)
          ((pget s.paddle_sizes p).fdiv 2 + 1))) with h | h <;> omega

/-- C4 witness for the amended claim: a legal downward move of 15 pixels
from the centre keeps the paddle inside [61, 639]. -/
theorem c4_witness :
    (pget e0.paddle_sizes 0).fdiv 2 + 1 ≤
        (pget (move_paddle geoTrue e0 0 1 15).paddles 0).2
    ∧ (pget (move_paddle geoTrue e0 0 1 15).paddles 0).2 ≤
        e0.board_height - (pget e0.paddle_sizes 0).fdiv 2 - 1 :=
  c4_amended_paddle_range geoTrue e0 0 1 15 (by decide) (by decide) (by decide)

/-- C5 counterexample to the claim as stated: the claim covers the
`reset()` of both variants, but `main.py`'s `reset` re-centres the
paddles, so from a state whose paddles are not at their initial
positions it does not leave the paddle positions unchanged. -/
theorem c5_counterexample : (resetM e5 0).paddles ≠ e5.paddles := by
  decide

/-- C5 amended: for every prior state, `reset()` places the ball at
exactly `(board_width / 2, board_height / 2)` (floor division), sets
both rally counters to 0, sets the direction to a member of the
6-direction list, and leaves both scores unchanged; the `Pong.py`
variant additionally leaves both paddle positions unchanged, while the
`main.py` variant re-centres both paddles at their initial positions. -/
theorem c5_amended_reset (s : Engine) (k : Nat) :
    (reset s k).ball_position = (s.board_width.fdiv 2, s.board_height.fdiv 2)
    ∧ (reset s k).rally_counter = (0, 0)
    ∧ (reset s k).current_ball_direction ∈ ballDirections
    ∧ (reset s k).paddles = s.paddles
    ∧ (reset s k).scores = s.scores
    ∧ (resetM s k).ball_position = (s.board_width.fdiv 2, s.board_height.fdiv 2)
    ∧ (resetM s k).rally_counter = (0, 0)
    ∧ (resetM s k).current_ball_direction ∈ ballDirections
    ∧ (resetM s k).scores = s.scores
    ∧ (resetM s k).paddles =
        ((PADDLE_WIDTH.fdiv 2, s.board_height.fdiv 2),
         (s.board_width - PADDLE_WIDTH.fdiv 2, s.board_height.fdiv 2)) := by
  refine ⟨rfl, rfl, ?_, rfl, rfl, rfl, rfl, ?_, rfl, rfl⟩ <;>
    exact choice_mem _ _ _ (by decide)

/-- C6: the culling band, exactly as the code tests it.  The
ball-movement check `check_paddle_collision` tests the x-coordinate of
the ball for this tick — the tentative x — and when it lies strictly
between `2 * PADDLE_WIDTH` and `board_width - 2 * PADDLE_WIDTH` it
declares no collision and returns the state unchanged (direction,
speed, rally counters and ball position untouched), before consulting
any geometry; the paddle-movement check `check_ball_collision` tests
the ball's current x and likewise returns no collision inside the band.
Hence the ball is never detected as colliding with a paddle while the
tested x-coordinate is inside the band. -/
theorem c6_culling_band (geo : Geo) (kY kS : Nat) (s : Engine)
    (p : Fin 2) (newY offset : Int) :
    ((PADDLE_WIDTH * 2 < (tentative s).1 ∧
        (tentative s).1 < s.board_width - PADDLE_WIDTH * 2) →
      check_paddle_collision geo kY kS s = (s, false))
    ∧ ((PADDLE_WIDTH * 2 < s.ball_position.1 ∧
        s.ball_position.1 < s.board_width - PADDLE_WIDTH * 2) →
      check_ball_collision geo s p newY offset = false) := by
  constructor
  · intro hb
    simp only [check_paddle_collision]
    rw [if_pos hb]
  · intro hb
    simp only [check_ball_collision]
    rw [if_pos hb]

/-- C6 witness: with the centred ball (tentative x = 760, current
x = 750, both inside (120, 1380)) both checks report no collision even
against the always-intersecting oracle. -/
theorem c6_witness :
    check_paddle_collision geoTrue 0 0 e0 = (e0, false)
    ∧ check_ball_collision geoTrue e0 0 350 120 = false := by
  have h := c6_culling_band geoTrue 0 0 e0 0 350 120
  exact ⟨h.1 (by decide), h.2 (by decide)⟩

/-- C7: on a tick with no paddle collision but with the tentative y
violating the vertical bounds (tentative y + radius > board height or
tentative y - radius < 0), only the vertical direction component is
reversed — horizontal direction, speed, rally counters and scores are
untouched — and the committed position is the tentative x paired with
`current y + (new vertical direction) * step y`. -/
theorem c7_wall_bounce (geo : Geo) (kY kS : Nat) (s : Engine)
    (hnc : (check_paddle_collision geo kY kS s).2 = false)
    (hw : (tentative s).2 + BALL_RADIUS > s.board_height ∨
      (tentative s).2 - BALL_RADIUS < 0) :
    (move_ball geo kY kS s).current_ball_direction =
        (s.current_ball_direction.1, -s.current_ball_direction.2)
    ∧ (move_ball geo kY kS s).ball_move_pixels = s.ball_move_pixels
    ∧ (move_ball geo kY kS s).rally_counter = s.rally_counter
    ∧ (move_ball geo kY kS s).scores = s.scores
    ∧ (move_ball geo kY kS s).ball_position =
        ((tentative s).1,
         s.ball_position.2 +
           (-s.current_ball_direction.2) * s.ball_move_pixels.2) := by
  have hs1 := check_paddle_collision_state geo kY kS s hnc
  have hwb : check_wall_collision s (tentative s).2 BALL_RADIUS = true := by
    simp only [check_wall_collision, tentative] at hw ⊢
    rcases hw with h | h <;> simp [h]
  have hmb : move_ball geo kY kS s =
      { s with
        current_ball_direction :=
          (s.current_ball_direction.1, -s.current_ball_direction.2),
        ball_position :=
          ((tentative s).1,
           s.ball_position.2 +
             (-s.current_ball_direction.2) * s.ball_move_pixels.2) } := by
    simp only [move_ball, hnc, hs1, Bool.false_eq_true, if_false]
    rw [if_pos (by rw [show (s.ball_position.2 +
      s.current_ball_direction.2 * s.ball_move_pixels.2) =
      (tentative s).2 from rfl]; exact hwb)]
    rfl
  rw [hmb]
  exact ⟨rfl, rfl, rfl, rfl, rfl⟩

/-- C7 witness: ball at (200, 690) moving (1, 1) with step (10, 5):
tentative y = 695 and 695 + 20 > 700, so the vertical direction flips
and the ball lands at (210, 685). -/
theorem c7_witness :
    (move_ball geoTrue 0 0 e7).current_ball_direction = (1, -1)
    ∧ (move_ball geoTrue 0 0 e7).ball_position = (210, 685) := by
  have h := c7_wall_bounce geoTrue 0 0 e7 (by decide) (by decide)
  exact ⟨by rw [h.1]; decide, by rw [h.2.2.2.2]; decide⟩

/-- C8: game over is reported exactly when some score equals the win
threshold (10 in `Pong.py`, checking player 0 first; 3 in `main.py`,
which emits for each player at the threshold) and nothing is reported
when both scores differ from it; and one `check_goal` step from a state
where play continues (no game over, scores at most the threshold)
leaves both scores at most the threshold. -/
theorem c8_game_over (s : Engine) :
    (s.scores.1 = 10 → check_game_over s = some "Player One won!")
    ∧ (s.scores.1 ≠ 10 → s.scores.2 = 10 →
        check_game_over s = some "Player Two won!")
    ∧ (s.scores.1 ≠ 10 → s.scores.2 ≠ 10 → check_game_over s = none)
    ∧ (check_game_over s = none → s.scores.1 ≤ 10 → s.scores.2 ≤ 10 →
        (check_goal s).1.scores.1 ≤ 10 ∧ (check_goal s).1.scores.2 ≤ 10)
    ∧ (s.scores.1 = 3 → "Player One won!" ∈ check_game_overM s)
    ∧ (s.scores.2 = 3 → "Player Two won!" ∈ check_game_overM s)
    ∧ (s.scores.1 ≠ 3 → s.scores.2 ≠ 3 → check_game_overM s = []) := by
  refine ⟨fun h1 => ?_, fun h1 h2 => ?_, fun h1 h2 => ?_,
    fun hn h1 h2 => ?_, fun h1 => ?_, fun h2 => ?_, fun h1 h2 => ?_⟩
  · simp [check_game_over, h1]
  · simp [check_game_over, h1, h2]
  · simp [check_game_over, h1, h2]
  · have hne : s.scores.1 ≠ 10 ∧ s.scores.2 ≠ 10 := by
      by_contra hcon
      rw [not_and_or, not_not, not_not] at hcon
      rcases hcon with h | h <;> simp [check_game_over, h] at hn
      exact absurd hn (by split_ifs with h1' <;> simp)
    simp only [check_goal]
    split_ifs <;> simp <;> omega
  · simp [check_game_overM, h1]
  · simp [check_game_overM, h2]
  · simp [check_game_overM, h1, h2]

/-- C8 witness: with player one's score at 10, `Pong.py` reports that
player one won; from a 9 : 9 state with no game over, one goal step
keeps both scores at most 10. -/
theorem c8_witness :
    check_game_over { e0 with scores := (10, 9) } = some "Player One won!"
    ∧ ((check_goal { e3 with scores := (9, 9) }).1.scores.1 ≤ 10
        ∧ (check_goal { e3 with scores := (9, 9) }).1.scores.2 ≤ 10) := by
  refine ⟨(c8_game_over { e0 with scores := (10, 9) }).1 (by decide), ?_⟩
  exact (c8_game_over { e3 with scores := (9, 9) }).2.2.2.1
    (by decide) (by decide) (by decide)

/-- Direction is unchanged by `move_paddle` (it only writes `paddles`). -/
theorem move_paddle_dir (geo : Geo) (s : Engine) (p : Fin 2) (d px : Int) :
    (move_paddle geo s p d px).current_ball_direction =
      s.current_ball_direction := rfl

/-- Direction is unchanged by one CPU paddle step. -/
theorem cpu_move_one_dir (geo : Geo) (s : Engine) (p : Fin 2) :
    (cpu_move_one geo s p).current_ball_direction =
      s.current_ball_direction := by
  simp only [cpu_move_one]
  split_ifs <;> rfl

/-- Direction is unchanged by `check_goal` (it only writes `scores`). -/
theorem check_goal_dir (s : Engine) :
    ((check_goal s).1).current_ball_direction = s.current_ball_direction := by
  simp only [check_goal]
  split_ifs <;> rfl

/-- `check_paddle_collision` keeps the direction in the 6-direction
list: it either leaves the direction alone or replaces it with
`(-x, v)` for some `v ∈ {-1, 0, 1}`. -/
theorem check_paddle_collision_dirOK (geo : Geo) (kY kS : Nat) (s : Engine)
    (h : s.current_ball_direction ∈ ballDirections) :
    ((check_paddle_collision geo kY kS s).1).current_ball_direction ∈
      ballDirections := by
  obtain ⟨hx, hy⟩ := (mem_ballDirections_iff _).mp h
  simp only [check_paddle_collision]
  split_ifs with hb
  · exact h
  · cases hcc : classify_collision geo s (tentative s) with
    | none => exact h
    | some pr =>
      obtain ⟨p, r⟩ := pr
      have hk3 : (kY % 3 : Nat) < 3 := Nat.mod_lt _ (by norm_num)
      simp only [apply_bounce]
      rw [mem_ballDirections_iff]
      constructor
      · simp only []
        omega
      · split_ifs with hr2 hr3
        · norm_num
        · norm_num
        · omega

/-- `move_ball` keeps the direction in the 6-direction list. -/
theorem move_ball_dirOK (geo : Geo) (kY kS : Nat) (s : Engine)
    (h : s.current_ball_direction ∈ ballDirections) :
    (move_ball geo kY kS s).current_ball_direction ∈ ballDirections := by
  have hc := check_paddle_collision_dirOK geo kY kS s h
  obtain ⟨hx, hy⟩ := (mem_ballDirections_iff _).mp h
  simp only [move_ball]
  split_ifs
  · exact hc
  · rw [mem_ballDirections_iff]
    constructor
    · simpa using hx
    · simp only []
      omega
  · exact hc

/-- The states reachable from `initialise()` by any sequence of the
engine operations named in the claim. -/
inductive Reachable : Engine → Prop where
  | init (s : Engine) (k : Nat) : Reachable (initialise s k)
  | ball (s : Engine) (geo : Geo) (kY kS : Nat) :
      Reachable s → Reachable (move_ball geo kY kS s)
  | paddle (s : Engine) (geo : Geo) (p : Fin 2) (d px : Int) :
      Reachable s → Reachable (move_paddle geo s p d px)
  | cpu (s : Engine) (geo : Geo) :
      Reachable s → Reachable (cpu_move_paddles geo s)
  | goal (s : Engine) : Reachable s → Reachable (check_goal s).1
  | pointReset (s : Engine) (k : Nat) :
      Reachable s → Reachable (reset s k)

/-- C9: in every state reachable after `initialise()` by `move_ball`,
`move_paddle`, `cpu_move_paddles`, `check_goal` and `reset` calls, the
ball's direction is one of the 6 allowed tuples; in particular both
components are in {-1, 0, 1} and the horizontal component is never 0. -/
theorem c9_direction_invariant (s : Engine) (h : Reachable s) :
    s.current_ball_direction ∈ ballDirections
    ∧ s.current_ball_direction.1 ≠ 0 := by
  have hm : s.current_ball_direction ∈ ballDirections := by
    induction h with
    | init s k => exact choice_mem _ _ _ (by decide)
    | ball s geo kY kS hr ih => exact move_ball_dirOK geo kY kS s ih
    | paddle s geo p d px hr ih => rw [move_paddle_dir]; exact ih
    | cpu s geo hr ih =>
      simp only [cpu_move_paddles, cpu_move_one_dir]
      exact ih
    | goal s hr ih => rw [check_goal_dir]; exact ih
    | pointReset s k hr => exact choice_mem _ _ _ (by decide)
  refine ⟨hm, ?_⟩
  obtain ⟨hx, _⟩ := (mem_ballDirections_iff _).mp hm
  omega

/-- C9 witness: the invariant holds at the freshly initialised state. -/
theorem c9_witness :
    (initialise e0 0).current_ball_direction ∈ ballDirections
    ∧ (initialise e0 0).current_ball_direction.1 ≠ 0 :=
  c9_direction_invariant (initialise e0 0) (Reachable.init e0 0)

/-- C10: the ball-movement detector tests only the inward-facing side
edge of each paddle (region index = player index).  If the sampled ball
perimeter at the tentative position is disjoint from the right edge,
top region and bottom region of paddle 0 and from the left edge, top
region and bottom region of paddle 1 — i.e. it could intersect at most
a paddle's outward-facing side edge — then `check_paddle_collision`
(both variants) reports no collision and leaves the state (direction,
speed, rally counters) unchanged. -/
theorem c10_outward_edge_ignored (geo : Geo) (kY kS : Nat) (s : Engine)
    (h1 : hitRegion geo s (tentative s) 0 0 = false)
    (h2 : hitRegion geo s (tentative s) 0 2 = false)
    (h3 : hitRegion geo s (tentative s) 0 3 = false)
    (h4 : hitRegion geo s (tentative s) 1 1 = false)
    (h5 : hitRegion geo s (tentative s) 1 2 = false)
    (h6 : hitRegion geo s (tentative s) 1 3 = false) :
    check_paddle_collision geo kY kS s = (s, false)
    ∧ check_paddle_collisionM geo kY kS s = (s, false) := by
  have hcl : classify_collision geo s (tentative s) = none := by
    simp [classify_collision, h1, h2, h3, h4, h5, h6]
  constructor
  · simp only [check_paddle_collision]
    split_ifs with hb
    · rfl
    · simp [hcl]
  · simp [check_paddle_collisionM, hcl]

/-- C10 witness: with an oracle under which only the outward edges ever
intersect, the centred state yields no collision in either variant. -/
theorem c10_witness :
    check_paddle_collision geoOut 0 0 e1 = (e1, false)
    ∧ check_paddle_collisionM geoOut 0 0 e1 = (e1, false) :=
  c10_outward_edge_ignored geoOut 0 0 e1 rfl rfl rfl rfl rfl rfl

end Pong
